import Mathlib

/-!
Shallow embedding of `src/AttensysUI/src/hooks/useFetchCID.ts`.

The hook couples three pieces of state: a per-CID fetch-status record,
a content cache, and the network collaborator `pinata.gateways.get`.
The collaborator is modelled as a function
`net : String → Nat → Except ErrObj α` giving, for a CID and a global
invocation index, either a payload (the resolved promise) or a
thrown/rejected error object.  JavaScript `null` is `Option.none`; the
JS exception channel is the `Except` layer, so a function body that
only ever `return`s (never `throw`s) always yields `Except.ok`.

The LRU cache is modelled by its `get`/`set` map semantics: the claims
under verification exercise neither the 30-minute TTL nor the
1000-entry eviction, and no modelled time passes between the
sequential calls they describe, so expiry and capacity eviction are
abstracted away.  A stored JS value may itself be `null` (the hook
caches the `null` produced by a failed fetch), hence a cache entry has
type `Option α` and the truthiness test `if (cachedResponse)` of the
source succeeds only on a present, non-null value `some (some _)`.

`Date.now()` is modelled by a logical clock `now`, advanced on every
status update.  The number of collaborator invocations performed so
far is threaded explicitly as the counter `calls`, so that claims
about "exactly n invocations" are claims about this counter.
-/

namespace UseFetchCID

/-- `DEFAULT_MAX_RETRIES` from the source. -/
def DEFAULT_MAX_RETRIES : Nat := 2

/-- `RETRY_DELAY` (milliseconds) from the source; the waiting itself is
not observable in this model. -/
def RETRY_DELAY : Nat := 1000

/-- `DEFAULT_TTL` (milliseconds) from the source. -/
def DEFAULT_TTL : Nat := 1000 * 60 * 30

/-- The narrow error-object shape the hook inspects after normalising a
caught value: optional `message`, nested `response.status`, `name` and
`code` fields.  `responseStatus = some n` means the error object has a
`response` field whose `status` is `n`; `none` covers both a missing
`response` and a missing `status`. -/
structure ErrObj where
  message : Option String
  responseStatus : Option Nat
  name : Option String
  code : Option String
deriving DecidableEq

/-- JavaScript `String.prototype.includes` for a non-empty pattern:
`pat` occurs as a substring of `s` iff splitting on it produces more
than one piece. -/
def strContains (s pat : String) : Bool :=
  (s.splitOn pat).length != 1

/-- The `isAuthError` classification of `fetchWithRetry` (source lines
74-85): message contains "403", message contains
"Authentication Failed", nested `response.status === 403`,
`name === "AuthenticationError"`, or `code === "ERR_ID:00006"`.
Optional chaining on a missing `message` yields `undefined`, hence
`false` for those two disjuncts. -/
def isAuthError (e : ErrObj) : Bool :=
  ((e.message.map (fun m => strContains m "403")).getD false)
  || ((e.message.map (fun m => strContains m "Authentication Failed")).getD false)
  || (e.responseStatus == some 403)
  || (e.name == some "AuthenticationError")
  || (e.code == some "ERR_ID:00006")

/-- `error.message || "Unknown error"`: the JS `||` falls through on a
missing or empty (falsy) message. -/
def jsMessageOr (e : ErrObj) (d : String) : String :=
  match e.message with
  | some m => if m = "" then d else m
  | none => d

/-- The per-CID `FetchStatus` record of the source.  A field that was
never written is observationally its default through the readers
(`?? false` / `?? null` / plain optional chaining), so `loading`
defaults to `false`, `error` to `null`, `lastUpdated` to `undefined`. -/
structure FetchStatus where
  loading : Bool
  error : Option String
  lastUpdated : Option Nat
deriving DecidableEq

/-- The base record an object spread starts from when `prev[CID]` is
`undefined`. -/
def emptyStatus : FetchStatus :=
  { loading := false, error := none, lastUpdated := none }

/-- A `Partial<FetchStatus>` as passed to `updateStatus`: the source
only ever passes `loading`, and sometimes `error`.  (`lastUpdated` in
the update would be overridden by `Date.now()` anyway.) -/
structure StatusUpdate where
  loading : Option Bool
  error : Option (Option String)

/-- The whole mutable state the hook closes over: the React status
record, the module-level cache, the global collaborator-invocation
counter and the logical clock. -/
structure HookState (α : Type) where
  status : String → Option FetchStatus
  cacheMap : String → Option (Option α)
  calls : Nat
  now : Nat

/-- `updateStatus` (source lines 42-50):
`{...prev, [CID]: {...prev[CID], ...updates, lastUpdated: Date.now()}}`.
Fields present in `updates` win over `prev[CID]`; `lastUpdated` is
always refreshed.  Only the entry at `CID` changes. -/
def updateStatus {α : Type} (s : HookState α) (CID : String) (u : StatusUpdate) :
    HookState α :=
  let prev := (s.status CID).getD emptyStatus
  { s with
    status := fun k =>
      if k = CID then
        some { loading := u.loading.getD prev.loading,
               error := u.error.getD prev.error,
               lastUpdated := some s.now }
      else s.status k,
    now := s.now + 1 }

/-- The `updateStatus(CID, { loading: true, error: null })` call at the
start of `fetchCIDContent`. -/
def markLoading {α : Type} (s : HookState α) (CID : String) : HookState α :=
  updateStatus s CID { loading := some true, error := some none }

/-- The `updateStatus(CID, { loading: false })` call on the success
path of `fetchCIDContent`. -/
def markSuccess {α : Type} (s : HookState α) (CID : String) : HookState α :=
  updateStatus s CID { loading := some false, error := none }

/-- The `updateStatus(CID, { loading: false, error: ... })` call in
the defensive catch of `fetchCIDContent`. -/
def markError {α : Type} (s : HookState α) (CID : String) (msg : String) :
    HookState α :=
  updateStatus s CID { loading := some false, error := some (some msg) }

/-- `fetchWithRetry` (source lines 52-111).  `net CID calls` is the
outcome of the `pinata.gateways.get(CID)` call at global invocation
index `calls`; the returned counter is the index after this call tree.
A successful collaborator call returns the payload; a caught error is
classified: auth errors return `null` at once, other errors retry
while `retryCount < DEFAULT_MAX_RETRIES`, and after exhaustion the
function returns `null`.  Every branch returns (the catch never
rethrows), so the result is always `Except.ok`. -/
def fetchWithRetry {α : Type} (net : String → Nat → Except ErrObj α)
    (CID : String) (calls : Nat) (retryCount : Nat) :
    Except ErrObj (Option α) × Nat :=
  match net CID calls with
  | .ok response => (.ok (some response), calls + 1)
  | .error e =>
    if isAuthError e then
      (.ok none, calls + 1)
    else if h : retryCount < DEFAULT_MAX_RETRIES then
      fetchWithRetry net CID (calls + 1) (retryCount + 1)
    else
      (.ok none, calls + 1)
termination_by DEFAULT_MAX_RETRIES - retryCount
decreasing_by simp_wf; omega

/-- `fetchCIDContent` (source lines 113-138).  Empty (falsy) CID:
return `null` with no state change.  Otherwise mark loading, consult
the cache (`if (cachedResponse)` — a truthiness test), and on a hit
return the cached value with no further update.  On a miss run
`fetchWithRetry` with `retryCount = 0`, store its result (possibly
`null`) in the cache, mark success and return it.  The catch branch
(reachable only if `fetchWithRetry` rejected) records the error
message and returns `null`. -/
def fetchCIDContent {α : Type} (net : String → Nat → Except ErrObj α)
    (s : HookState α) (CID : String) :
    Except ErrObj (Option α) × HookState α :=
  if CID = "" then (.ok none, s)
  else
    let s1 := updateStatus s CID { loading := some true, error := some none }
    match s1.cacheMap CID with
    | some (some cached) => (.ok (some cached), s1)
    | _ =>
      match fetchWithRetry net CID s1.calls 0 with
      | (.ok data, n) =>
        let s2 : HookState α :=
          { s1 with
            cacheMap := fun k => if k = CID then some data else s1.cacheMap k,
            calls := n }
        let s3 := updateStatus s2 CID { loading := some false, error := none }
        (.ok data, s3)
      | (.error e, n) =>
        let s2 : HookState α := { s1 with calls := n }
        let s3 := updateStatus s2 CID
          { loading := some false, error := some (some (jsMessageOr e "Unknown error")) }
        (.ok none, s3)

/-- `fetchMultipleCIDs` (source lines 140-145):
`Promise.all(CIDs.map((cid) => fetchCIDContent(cid)))`, modelled in the
sequential interleaving where each fetch completes before the next
starts; `Promise.all` rejects iff some element rejects. -/
def fetchMultipleCIDs {α : Type} (net : String → Nat → Except ErrObj α)
    (s : HookState α) : List String → Except ErrObj (List (Option α)) × HookState α
  | [] => (.ok [], s)
  | c :: rest =>
    match fetchCIDContent net s c with
    | (.ok r, s1) =>
      match fetchMultipleCIDs net s1 rest with
      | (.ok rs, s2) => (.ok (r :: rs), s2)
      | (.error e, s2) => (.error e, s2)
    | (.error e, s1) => (.error e, s1)

/-- Reader `isLoading`: `status[CID]?.loading ?? false`. -/
def isLoading {α : Type} (s : HookState α) (CID : String) : Bool :=
  ((s.status CID).map FetchStatus.loading).getD false

/-- Reader `getError`: `status[CID]?.error ?? null`. -/
def getError {α : Type} (s : HookState α) (CID : String) : Option String :=
  match s.status CID with
  | some st => st.error
  | none => none

/-- Reader `getLastUpdated`: `status[CID]?.lastUpdated`. -/
def getLastUpdated {α : Type} (s : HookState α) (CID : String) : Option Nat :=
  match s.status CID with
  | some st => st.lastUpdated
  | none => none

/-- A fresh hook state: no statuses, empty cache, counters at zero. -/
def initState {α : Type} : HookState α :=
  { status := fun _ => none, cacheMap := fun _ => none, calls := 0, now := 0 }

/-- The state reached after running `fetchCIDContent` over a list of
CIDs in order (the sequential interleaving of the fan-out). -/
def runUpTo {α : Type} (net : String → Nat → Except ErrObj α) (s : HookState α) :
    List String → HookState α
  | [] => s
  | c :: rest => runUpTo net (fetchCIDContent net s c).2 rest

/-- The value component of a `fetchCIDContent` call (its rejection
branch is unreachable; a rejection would surface as `none` here). -/
def fetchVal {α : Type} (net : String → Nat → Except ErrObj α) (s : HookState α)
    (c : String) : Option α :=
  match (fetchCIDContent net s c).1 with
  | .ok v => v
  | .error _ => none

/-- A concrete auth-style error object: `name = "AuthenticationError"`. -/
def authErr : ErrObj :=
  { message := none, responseStatus := none, name := some "AuthenticationError", code := none }

/-- A concrete transient (non-auth) error object. -/
def transientErr : ErrObj :=
  { message := none, responseStatus := none, name := none, code := none }

/-- A collaborator that always rejects with an auth error. -/
def netAuthFail : String → Nat → Except ErrObj Nat :=
  fun _ _ => .error authErr

/-- A collaborator that always rejects with a transient error. -/
def netFail : String → Nat → Except ErrObj Nat :=
  fun _ _ => .error transientErr

/-- A collaborator that always succeeds with payload 7. -/
def netOk : String → Nat → Except ErrObj Nat :=
  fun _ _ => .ok 7

/-- A collaborator that rejects with a transient error on the first
two invocations and then succeeds with payload 7. -/
def netFlaky : String → Nat → Except ErrObj Nat :=
  fun _ n => if n < 2 then .error transientErr else .ok 7

/-- A state whose cache holds the (truthy) payload 5 under key "f". -/
def cachedState : HookState Nat :=
  { status := fun _ => none,
    cacheMap := fun k => if k = "f" then some (some 5) else none,
    calls := 0, now := 0 }

/-- A state whose cache holds a stored JS `null` under key "h" — the
shape left behind by a failed fetch. -/
def nullCachedState : HookState Nat :=
  { status := fun _ => none,
    cacheMap := fun k => if k = "h" then some none else none,
    calls := 0, now := 0 }

/-! ### Unfolding lemmas for `fetchWithRetry` -/

/-- A successful collaborator call returns the payload at once. -/
lemma fwr_of_ok {α : Type} (net : String → Nat → Except ErrObj α) (CID : String)
    (calls retryCount : Nat) (p : α) (h : net CID calls = .ok p) :
    fetchWithRetry net CID calls retryCount = (.ok (some p), calls + 1) := by
  unfold fetchWithRetry
  rw [h]

/-- An auth-classified error aborts at once with `null`. -/
lemma fwr_of_auth {α : Type} (net : String → Nat → Except ErrObj α) (CID : String)
    (calls retryCount : Nat) (e : ErrObj) (h : net CID calls = .error e)
    (ha : isAuthError e = true) :
    fetchWithRetry net CID calls retryCount = (.ok none, calls + 1) := by
  unfold fetchWithRetry
  rw [h]
  simp [ha]

/-- A non-auth error below the retry bound recurses with the next
invocation index and attempt number. -/
lemma fwr_of_retry {α : Type} (net : String → Nat → Except ErrObj α) (CID : String)
    (calls retryCount : Nat) (e : ErrObj) (h : net CID calls = .error e)
    (ha : isAuthError e = false) (hr : retryCount < DEFAULT_MAX_RETRIES) :
    fetchWithRetry net CID calls retryCount
      = fetchWithRetry net CID (calls + 1) (retryCount + 1) := by
  conv_lhs => unfold fetchWithRetry
  rw [h]
  simp [ha, hr]

/-- A non-auth error at the retry bound gives up with `null`. -/
lemma fwr_of_exhaust {α : Type} (net : String → Nat → Except ErrObj α) (CID : String)
    (calls retryCount : Nat) (e : ErrObj) (h : net CID calls = .error e)
    (ha : isAuthError e = false) (hr : ¬ retryCount < DEFAULT_MAX_RETRIES) :
    fetchWithRetry net CID calls retryCount = (.ok none, calls + 1) := by
  unfold fetchWithRetry
  rw [h]
  simp [ha, hr]

/-- `fetchWithRetry` never rejects, and performs at least one and at
most `DEFAULT_MAX_RETRIES + 1` collaborator invocations. -/
lemma fwr_ok_and_calls {α : Type} (net : String → Nat → Except ErrObj α) (CID : String) :
    ∀ fuel retryCount calls, DEFAULT_MAX_RETRIES - retryCount ≤ fuel →
      ∃ v n, fetchWithRetry net CID calls retryCount = (.ok v, n)
        ∧ calls < n ∧ n ≤ calls + fuel + 1 := by
  intro fuel
  induction fuel with
  | zero =>
    intro retryCount calls hf
    cases hok : net CID calls with
    | ok p =>
      exact ⟨some p, calls + 1, fwr_of_ok net CID calls retryCount p hok, by omega, by omega⟩
    | error e =>
      cases ha : isAuthError e with
      | true =>
        exact ⟨none, calls + 1, fwr_of_auth net CID calls retryCount e hok ha, by omega, by omega⟩
      | false =>
        have hr : ¬ retryCount < DEFAULT_MAX_RETRIES := by omega
        exact ⟨none, calls + 1, fwr_of_exhaust net CID calls retryCount e hok ha hr, by omega, by omega⟩
  | succ fuel ih =>
    intro retryCount calls hf
    cases hok : net CID calls with
    | ok p =>
      exact ⟨some p, calls + 1, fwr_of_ok net CID calls retryCount p hok, by omega, by omega⟩
    | error e =>
      cases ha : isAuthError e with
      | true =>
        exact ⟨none, calls + 1, fwr_of_auth net CID calls retryCount e hok ha, by omega, by omega⟩
      | false =>
        by_cases hr : retryCount < DEFAULT_MAX_RETRIES
        · obtain ⟨v, n, heq, hlt, hle⟩ := ih (retryCount + 1) (calls + 1) (by omega)
          exact ⟨v, n, (fwr_of_retry net CID calls retryCount e hok ha hr).trans heq,
            by omega, by omega⟩
        · exact ⟨none, calls + 1, fwr_of_exhaust net CID calls retryCount e hok ha hr, by omega, by omega⟩

/-- `fetchWithRetry` never rejects. -/
lemma fwr_ok {α : Type} (net : String → Nat → Except ErrObj α) (CID : String)
    (calls retryCount : Nat) :
    ∃ v n, fetchWithRetry net CID calls retryCount = (.ok v, n) ∧ calls < n := by
  obtain ⟨v, n, heq, hlt, _⟩ :=
    fwr_ok_and_calls net CID (DEFAULT_MAX_RETRIES - retryCount) retryCount calls (by omega)
  exact ⟨v, n, heq, hlt⟩

/-- A collaborator that keeps failing with non-auth errors is invoked
exactly `DEFAULT_MAX_RETRIES + 1 = 3` times from attempt 0 and yields
`null`. -/
lemma fwr_all_fail {α : Type} (net : String → Nat → Except ErrObj α) (CID : String)
    (calls : Nat)
    (h : ∀ n, ∃ e, net CID n = .error e ∧ isAuthError e = false) :
    fetchWithRetry net CID calls 0 = (.ok none, calls + 3) := by
  obtain ⟨e0, h0, a0⟩ := h calls
  obtain ⟨e1, h1, a1⟩ := h (calls + 1)
  obtain ⟨e2, h2, a2⟩ := h (calls + 2)
  rw [fwr_of_retry net CID calls 0 e0 h0 a0 (by decide),
    fwr_of_retry net CID (calls + 1) 1 e1 h1 a1 (by decide),
    fwr_of_exhaust net CID (calls + 2) 2 e2 h2 a2 (by decide)]

/-! ### Helper lemmas for `updateStatus` and `fetchCIDContent` -/

/-- `updateStatus` leaves the cache untouched. -/
lemma updateStatus_cacheMap {α : Type} (s : HookState α) (CID : String)
    (u : StatusUpdate) : (updateStatus s CID u).cacheMap = s.cacheMap := rfl

/-- `updateStatus` performs no collaborator invocation. -/
lemma updateStatus_calls {α : Type} (s : HookState α) (CID : String)
    (u : StatusUpdate) : (updateStatus s CID u).calls = s.calls := rfl

/-- `updateStatus` on one key leaves every other key's entry unchanged. -/
lemma updateStatus_status_ne {α : Type} (s : HookState α) (a b : String)
    (u : StatusUpdate) (h : b ≠ a) :
    (updateStatus s a u).status b = s.status b := by
  simp [updateStatus, h]

/-- The entry written by `updateStatus` at its own key. -/
lemma updateStatus_status_self {α : Type} (s : HookState α) (a : String)
    (u : StatusUpdate) :
    (updateStatus s a u).status a
      = some { loading := u.loading.getD ((s.status a).getD emptyStatus).loading,
               error := u.error.getD ((s.status a).getD emptyStatus).error,
               lastUpdated := some s.now } := by
  simp [updateStatus]

/-- Empty CID: immediate `null`, state untouched. -/
lemma fcc_empty {α : Type} (net : String → Nat → Except ErrObj α) (s : HookState α) :
    fetchCIDContent net s "" = (.ok none, s) := rfl

/-- Cache hit (present, non-null entry): the cached value is returned
and the only state change is the initial loading mark. -/
lemma fcc_cache_hit {α : Type} (net : String → Nat → Except ErrObj α)
    (s : HookState α) (CID : String) (p : α)
    (hne : CID ≠ "") (hc : s.cacheMap CID = some (some p)) :
    fetchCIDContent net s CID
      = (.ok (some p), updateStatus s CID { loading := some true, error := some none }) := by
  simp only [fetchCIDContent]
  rw [if_neg hne, updateStatus_cacheMap, hc]

/-- Cache miss (absent entry, or a present falsy `null` entry): the
retrying fetch runs from the current invocation counter, its result is
stored in the cache, and success is marked. -/
lemma fcc_miss {α : Type} (net : String → Nat → Except ErrObj α)
    (s : HookState α) (CID : String) (v : Option α) (n : Nat)
    (hne : CID ≠ "")
    (hm : s.cacheMap CID = none ∨ s.cacheMap CID = some none)
    (hf : fetchWithRetry net CID s.calls 0 = (.ok v, n)) :
    fetchCIDContent net s CID
      = (.ok v,
          updateStatus
            { updateStatus s CID { loading := some true, error := some none } with
              cacheMap := fun k => if k = CID then some v else s.cacheMap k,
              calls := n }
            CID { loading := some false, error := none }) := by
  simp only [fetchCIDContent]
  rcases hm with hm | hm <;>
    rw [if_neg hne, updateStatus_cacheMap, hm, updateStatus_calls, hf]

/-- `fetchCIDContent` never rejects: every branch of the source
returns normally. -/
lemma fcc_ok {α : Type} (net : String → Nat → Except ErrObj α) (s : HookState α)
    (CID : String) : ∃ v s', fetchCIDContent net s CID = (.ok v, s') := by
  by_cases hne : CID = ""
  · exact ⟨none, s, by rw [hne]; exact fcc_empty net s⟩
  · rcases hc : s.cacheMap CID with _ | ⟨_ | p⟩
    · obtain ⟨v, n, hf, -⟩ := fwr_ok net CID s.calls 0
      exact ⟨v, _, fcc_miss net s CID v n hne (Or.inl hc) hf⟩
    · obtain ⟨v, n, hf, -⟩ := fwr_ok net CID s.calls 0
      exact ⟨v, _, fcc_miss net s CID v n hne (Or.inr hc) hf⟩
    · exact ⟨some p, _, fcc_cache_hit net s CID p hne hc⟩

/-- If a `fetchCIDContent` call produced a non-null payload, then the
CID was non-empty and the resulting state's cache holds that payload
(either it was already the cached entry, or the network path just
stored it). -/
lemma fcc_result_cached {α : Type} (net : String → Nat → Except ErrObj α)
    (s : HookState α) (CID : String) (p : α)
    (h : (fetchCIDContent net s CID).1 = .ok (some p)) :
    CID ≠ "" ∧ ((fetchCIDContent net s CID).2).cacheMap CID = some (some p) := by
  by_cases hne : CID = ""
  · rw [hne, fcc_empty] at h
    simp at h
  · refine ⟨hne, ?_⟩
    rcases hc : s.cacheMap CID with _ | ⟨_ | q⟩
    · obtain ⟨v, n, hf, -⟩ := fwr_ok net CID s.calls 0
      rw [fcc_miss net s CID v n hne (Or.inl hc) hf] at h ⊢
      simp only [Except.ok.injEq] at h
      simp [updateStatus_cacheMap, h]
    · obtain ⟨v, n, hf, -⟩ := fwr_ok net CID s.calls 0
      rw [fcc_miss net s CID v n hne (Or.inr hc) hf] at h ⊢
      simp only [Except.ok.injEq] at h
      simp [updateStatus_cacheMap, h]
    · rw [fcc_cache_hit net s CID q hne hc] at h ⊢
      simp only [Except.ok.injEq, Option.some.injEq] at h
      rw [updateStatus_cacheMap, hc, h]

/-! ### The claims -/

/-- C1: for every CID, if the collaborator call fails with an error
classified as authentication/authorization (`isAuthError`), then
`fetchWithRetry` performs exactly one collaborator invocation — the
counter advances from `calls` to `calls + 1` — and returns `null`,
regardless of the current retry count. -/
theorem claim_C1_auth_error_no_retry {α : Type} (net : String → Nat → Except ErrObj α)
    (CID : String) (calls retryCount : Nat) (e : ErrObj)
    (h : net CID calls = .error e) (ha : isAuthError e = true) :
    fetchWithRetry net CID calls retryCount = (.ok none, calls + 1) :=
  fwr_of_auth net CID calls retryCount e h ha

/-- Witness for C1 at a concrete collaborator that always rejects with
a name-classified auth error. -/
theorem claim_C1_witness :
    netAuthFail "cid1" 0 = .error authErr
      ∧ isAuthError authErr = true
      ∧ fetchWithRetry netAuthFail "cid1" 0 0 = (.ok none, 1) :=
  ⟨rfl, by decide, claim_C1_auth_error_no_retry netAuthFail "cid1" 0 0 authErr rfl (by decide)⟩

/-- C2: for every CID, a collaborator that always fails with non-auth
errors is invoked exactly `DEFAULT_MAX_RETRIES + 1 = 3` times and the
result is `null`; a collaborator that fails twice with non-auth errors
and then succeeds is invoked exactly 3 times and the result is the
success payload. -/
theorem claim_C2_retry_counts {α : Type} (netA netB : String → Nat → Except ErrObj α)
    (CID : String) (p : α)
    (hA : ∀ n, ∃ e, netA CID n = .error e ∧ isAuthError e = false)
    (hB0 : ∃ e, netB CID 0 = .error e ∧ isAuthError e = false)
    (hB1 : ∃ e, netB CID 1 = .error e ∧ isAuthError e = false)
    (hB2 : netB CID 2 = .ok p) :
    fetchWithRetry netA CID 0 0 = (.ok none, 3)
      ∧ fetchWithRetry netB CID 0 0 = (.ok (some p), 3) := by
  constructor
  · simpa using fwr_all_fail netA CID 0 hA
  · obtain ⟨e0, h0, a0⟩ := hB0
    obtain ⟨e1, h1, a1⟩ := hB1
    rw [fwr_of_retry netB CID 0 0 e0 h0 a0 (by decide),
      fwr_of_retry netB CID 1 1 e1 h1 a1 (by decide),
      fwr_of_ok netB CID 2 2 p hB2]

/-- Witness for C2 at an always-failing collaborator and a
fails-twice-then-succeeds collaborator. -/
theorem claim_C2_witness :
    (∀ n, ∃ e, netFail "cid2" n = .error e ∧ isAuthError e = false)
      ∧ (∃ e, netFlaky "cid2" 0 = .error e ∧ isAuthError e = false)
      ∧ (∃ e, netFlaky "cid2" 1 = .error e ∧ isAuthError e = false)
      ∧ netFlaky "cid2" 2 = .ok 7
      ∧ fetchWithRetry netFail "cid2" 0 0 = (.ok none, 3)
      ∧ fetchWithRetry netFlaky "cid2" 0 0 = (.ok (some 7), 3) := by
  refine ⟨fun n => ⟨transientErr, rfl, by decide⟩, ⟨transientErr, rfl, by decide⟩,
    ⟨transientErr, rfl, by decide⟩, rfl, ?_⟩
  exact claim_C2_retry_counts netFail netFlaky "cid2" 7
    (fun n => ⟨transientErr, rfl, by decide⟩)
    ⟨transientErr, rfl, by decide⟩ ⟨transientErr, rfl, by decide⟩ rfl

/-- C9: for every collaborator behaviour, neither `fetchWithRetry` nor
`fetchCIDContent` ever rejects: both always produce `Except.ok`
results (every failure path is caught and converted to `null`). -/
theorem claim_C9_never_throws {α : Type} (net : String → Nat → Except ErrObj α) :
    (∀ CID calls retryCount, ∃ v n,
        fetchWithRetry net CID calls retryCount = (.ok v, n))
      ∧ (∀ (s : HookState α) CID, ∃ v s',
        fetchCIDContent net s CID = (.ok v, s')) := by
  constructor
  · intro CID calls retryCount
    obtain ⟨v, n, h, -⟩ := fwr_ok net CID calls retryCount
    exact ⟨v, n, h⟩
  · intro s CID
    exact fcc_ok net s CID

/-- C3 counterexample: a concrete CID whose fetch fails with a
transient error on all three attempts ends with a `null` result and
`getError` still `null` — the error status message the claim requires
is never written, because `fetchWithRetry` swallows the failure and
returns `null` instead of rejecting, so the orchestration takes its
success path. -/
theorem claim_C3_counterexample :
    (fetchCIDContent netFail (initState : HookState Nat) "c").1 = .ok none
      ∧ getError (fetchCIDContent netFail (initState : HookState Nat) "c").2 "c" = none
      ∧ isLoading (fetchCIDContent netFail (initState : HookState Nat) "c").2 "c" = false := by
  have hf : fetchWithRetry netFail "c" 0 0 = (.ok none, 3) := by
    simpa using fwr_all_fail netFail "c" 0 (fun n => ⟨transientErr, rfl, by decide⟩)
  rw [fcc_miss netFail (initState : HookState Nat) "c" none 3 (by decide) (Or.inl rfl) hf]
  refine ⟨rfl, ?_, ?_⟩ <;> simp [getError, isLoading, updateStatus, emptyStatus]

/-- C3 (amended): for every CID whose fetch fails with a transient
(non-auth) error on all attempts, after the retry limit is exhausted
the public result is `null`, but the status for that CID does NOT
carry an error message: `getError` returns `null` and `loading` is
`false`, because the exhausted retry returns `null` rather than
rejecting and the orchestration therefore records success. -/
theorem claim_C3_amended {α : Type} (net : String → Nat → Except ErrObj α)
    (s : HookState α) (CID : String)
    (hne : CID ≠ "")
    (hm : s.cacheMap CID = none ∨ s.cacheMap CID = some none)
    (hfail : ∀ n, ∃ e, net CID n = .error e ∧ isAuthError e = false) :
    (fetchCIDContent net s CID).1 = .ok none
      ∧ getError (fetchCIDContent net s CID).2 CID = none
      ∧ isLoading (fetchCIDContent net s CID).2 CID = false := by
  rw [fcc_miss net s CID none (s.calls + 3) hne hm (fwr_all_fail net CID s.calls hfail)]
  refine ⟨rfl, ?_, ?_⟩ <;> simp [getError, isLoading, updateStatus, emptyStatus]

/-- Witness for the amended C3 at a concrete always-failing
collaborator on a fresh state. -/
theorem claim_C3_witness :
    ("c3" : String) ≠ ""
      ∧ (initState : HookState Nat).cacheMap "c3" = none
      ∧ (∀ n, ∃ e, netFail "c3" n = .error e ∧ isAuthError e = false)
      ∧ ((fetchCIDContent netFail (initState : HookState Nat) "c3").1 = .ok none
        ∧ getError (fetchCIDContent netFail (initState : HookState Nat) "c3").2 "c3" = none
        ∧ isLoading (fetchCIDContent netFail (initState : HookState Nat) "c3").2 "c3" = false) :=
  ⟨by decide, rfl, fun n => ⟨transientErr, rfl, by decide⟩,
    claim_C3_amended netFail (initState : HookState Nat) "c3" (by decide) (Or.inl rfl)
      (fun n => ⟨transientErr, rfl, by decide⟩)⟩

/-- C4 counterexample: with a collaborator that always fails
transiently, the first `fetchCIDContent` performs 3 invocations and
caches `null`; the second call for the same CID treats the falsy
cached `null` as a miss and performs 3 further invocations (6 total) —
so the second call does invoke the network collaborator again,
contrary to the claim's unconditional statement. -/
theorem claim_C4_counterexample :
    ((fetchCIDContent netFail (initState : HookState Nat) "d").2).calls = 3
      ∧ ((fetchCIDContent netFail
          ((fetchCIDContent netFail (initState : HookState Nat) "d").2) "d").2).calls = 6 := by
  have hf1 : fetchWithRetry netFail "d" 0 0 = (.ok none, 3) := by
    simpa using fwr_all_fail netFail "d" 0 (fun n => ⟨transientErr, rfl, by decide⟩)
  rw [fcc_miss netFail (initState : HookState Nat) "d" none 3 (by decide) (Or.inl rfl) hf1]
  refine ⟨rfl, ?_⟩
  have hf2 : fetchWithRetry netFail "d" 3 0 = (.ok none, 6) := by
    simpa using fwr_all_fail netFail "d" 3 (fun n => ⟨transientErr, rfl, by decide⟩)
  rw [fcc_miss netFail _ "d" none 6 (by decide) (Or.inr rfl) hf2]
  rfl

/-- C4 (amended): if the first completed `fetchCIDContent` call for a
CID produced a non-null payload, then a second sequential call for the
same CID — with an arbitrary collaborator — returns that cached
payload, its only state change is the initial loading mark, and the
invocation counter does not move (the collaborator is not invoked
again).  The amendment restricts the claim to first calls that
succeeded: a first call that cached `null` leads to a re-fetch. -/
theorem claim_C4_amended {α : Type} (netA netB : String → Nat → Except ErrObj α)
    (s : HookState α) (CID : String) (p : α)
    (h : (fetchCIDContent netA s CID).1 = .ok (some p)) :
    fetchCIDContent netB ((fetchCIDContent netA s CID).2) CID
      = (.ok (some p),
         updateStatus ((fetchCIDContent netA s CID).2) CID
           { loading := some true, error := some none })
      ∧ ((fetchCIDContent netB ((fetchCIDContent netA s CID).2) CID).2).calls
          = ((fetchCIDContent netA s CID).2).calls := by
  obtain ⟨hne, hc⟩ := fcc_result_cached netA s CID p h
  have hrun := fcc_cache_hit netB ((fetchCIDContent netA s CID).2) CID p hne hc
  exact ⟨hrun, by rw [hrun, updateStatus_calls]⟩

/-- Witness for the amended C4: a successful first fetch, then a
second call served from the cache. -/
theorem claim_C4_witness :
    (fetchCIDContent netOk (initState : HookState Nat) "e").1 = .ok (some 7)
      ∧ (fetchCIDContent netOk ((fetchCIDContent netOk (initState : HookState Nat) "e").2) "e"
          = (.ok (some 7),
             updateStatus ((fetchCIDContent netOk (initState : HookState Nat) "e").2) "e"
               { loading := some true, error := some none })
        ∧ ((fetchCIDContent netOk
            ((fetchCIDContent netOk (initState : HookState Nat) "e").2) "e").2).calls
            = ((fetchCIDContent netOk (initState : HookState Nat) "e").2).calls) := by
  have h : (fetchCIDContent netOk (initState : HookState Nat) "e").1 = .ok (some 7) := by
    rw [fcc_miss netOk (initState : HookState Nat) "e" (some 7) 1 (by decide) (Or.inl rfl)
      (fwr_of_ok netOk "e" 0 0 7 rfl)]
  exact ⟨h, claim_C4_amended netOk netOk (initState : HookState Nat) "e" 7 h⟩

/-- C5: for every CID with a (truthy) cached entry, `fetchCIDContent`
returns the cached value, the invocation counter does not move, and
the status for the CID is left exactly as the initial loading mark
wrote it: `loading = true` and `error = null` (the success update is
skipped on a cache hit). -/
theorem claim_C5_cache_hit_keeps_loading {α : Type} (net : String → Nat → Except ErrObj α)
    (s : HookState α) (CID : String) (p : α)
    (hne : CID ≠ "") (hc : s.cacheMap CID = some (some p)) :
    (fetchCIDContent net s CID).1 = .ok (some p)
      ∧ isLoading (fetchCIDContent net s CID).2 CID = true
      ∧ getError (fetchCIDContent net s CID).2 CID = none
      ∧ ((fetchCIDContent net s CID).2).calls = s.calls
      ∧ (fetchCIDContent net s CID).2
          = updateStatus s CID { loading := some true, error := some none } := by
  rw [fcc_cache_hit net s CID p hne hc]
  refine ⟨rfl, ?_, ?_, rfl, rfl⟩ <;>
    simp [isLoading, getError, updateStatus_status_self]

/-- Witness for C5 at a concrete state caching payload 5 under "f". -/
theorem claim_C5_witness :
    ("f" : String) ≠ ""
      ∧ cachedState.cacheMap "f" = some (some 5)
      ∧ ((fetchCIDContent netFail cachedState "f").1 = .ok (some 5)
        ∧ isLoading (fetchCIDContent netFail cachedState "f").2 "f" = true
        ∧ getError (fetchCIDContent netFail cachedState "f").2 "f" = none
        ∧ ((fetchCIDContent netFail cachedState "f").2).calls = cachedState.calls
        ∧ (fetchCIDContent netFail cachedState "f").2
            = updateStatus cachedState "f" { loading := some true, error := some none }) :=
  ⟨by decide, rfl,
    claim_C5_cache_hit_keeps_loading netFail cachedState "f" 5 (by decide) rfl⟩

/-- C6: for every input list of CIDs, `fetchMultipleCIDs` resolves
(never rejects) with a list of the same length whose entry at each
position is the `fetchCIDContent` result for the CID at that position
(evaluated in the state the earlier fetches produced); an individual
failure surfaces as a `null` entry, never as a failed aggregate. -/
theorem claim_C6_fan_out {α : Type} (net : String → Nat → Except ErrObj α)
    (s : HookState α) (CIDs : List String) :
    ∃ rs s', fetchMultipleCIDs net s CIDs = (.ok rs, s')
      ∧ rs.length = CIDs.length
      ∧ ∀ i : Fin CIDs.length,
          rs.get? i.val
            = some (fetchVal net (runUpTo net s (CIDs.take i.val)) (CIDs.get i)) := by
  induction CIDs generalizing s with
  | nil => exact ⟨[], s, rfl, rfl, fun i => i.elim0⟩
  | cons c rest ih =>
    obtain ⟨v, s1, h1⟩ := fcc_ok net s c
    obtain ⟨rs, s2, h2, hlen, hidx⟩ := ih s1
    refine ⟨v :: rs, s2, ?_, by simp [hlen], ?_⟩
    · simp only [fetchMultipleCIDs, h1, h2]
    · rintro ⟨iv, hi⟩
      cases iv with
      | zero =>
        simp [fetchVal, runUpTo, h1]
      | succ j =>
        have hj : j < rest.length := by simpa using hi
        have hstep := hidx ⟨j, hj⟩
        simpa [runUpTo, h1] using hstep

/-- C7: an empty (falsy) CID makes `fetchCIDContent` return `null`
immediately with the whole state — status mapping, cache, invocation
counter — untouched; and a never-fetched key reads as not loading,
no error, no last-updated time. -/
theorem claim_C7_empty_cid {α : Type} (net : String → Nat → Except ErrObj α)
    (s : HookState α) :
    fetchCIDContent net s "" = (.ok none, s)
      ∧ ∀ CID, s.status CID = none →
          isLoading s CID = false ∧ getError s CID = none ∧ getLastUpdated s CID = none := by
  refine ⟨fcc_empty net s, fun CID h => ?_⟩
  simp [isLoading, getError, getLastUpdated, h]

/-- Witness for C7 on a fresh state and a never-fetched key. -/
theorem claim_C7_witness :
    fetchCIDContent netFail (initState : HookState Nat) "" = (.ok none, initState)
      ∧ (initState : HookState Nat).status "g" = none
      ∧ isLoading (initState : HookState Nat) "g" = false
      ∧ getError (initState : HookState Nat) "g" = none
      ∧ getLastUpdated (initState : HookState Nat) "g" = none := by
  obtain ⟨h1, h2⟩ := claim_C7_empty_cid netFail (initState : HookState Nat)
  obtain ⟨a, b, c⟩ := h2 "g" rfl
  exact ⟨h1, rfl, a, b, c⟩

/-- C8: for every pair of distinct CIDs, a status update applied to
one — the raw `updateStatus` as well as its three instantiations
`markLoading`, `markSuccess` and `markError` — leaves the other CID's
entry in the shared status mapping unchanged. -/
theorem claim_C8_status_frame {α : Type} (s : HookState α) (a b : String)
    (u : StatusUpdate) (msg : String) (h : a ≠ b) :
    (updateStatus s a u).status b = s.status b
      ∧ (markLoading s a).status b = s.status b
      ∧ (markSuccess s a).status b = s.status b
      ∧ (markError s a msg).status b = s.status b :=
  ⟨updateStatus_status_ne s a b u (Ne.symm h),
   updateStatus_status_ne s a b _ (Ne.symm h),
   updateStatus_status_ne s a b _ (Ne.symm h),
   updateStatus_status_ne s a b _ (Ne.symm h)⟩

/-- Witness for C8 at two concrete distinct CIDs. -/
theorem claim_C8_witness :
    ("a" : String) ≠ "b"
      ∧ ((updateStatus (initState : HookState Nat) "a"
            { loading := some true, error := some none }).status "b"
          = (initState : HookState Nat).status "b"
        ∧ (markLoading (initState : HookState Nat) "a").status "b"
            = (initState : HookState Nat).status "b"
        ∧ (markSuccess (initState : HookState Nat) "a").status "b"
            = (initState : HookState Nat).status "b"
        ∧ (markError (initState : HookState Nat) "a" "boom").status "b"
            = (initState : HookState Nat).status "b") :=
  ⟨by decide,
    claim_C8_status_frame (initState : HookState Nat) "a" "b"
      { loading := some true, error := some none } "boom" (by decide)⟩

/-- C10: a cached falsy value (the stored `null` left by a failed
fetch) is treated as a cache miss — the hit branch tests truthiness,
not key presence — so `fetchCIDContent` invokes the collaborator
again: its result is the retrying fetch's result and the invocation
counter strictly increases. -/
theorem claim_C10_null_cache_refetch {α : Type} (net : String → Nat → Except ErrObj α)
    (s : HookState α) (CID : String)
    (hne : CID ≠ "") (hc : s.cacheMap CID = some none) :
    (fetchCIDContent net s CID).1 = (fetchWithRetry net CID s.calls 0).1
      ∧ s.calls < ((fetchCIDContent net s CID).2).calls := by
  obtain ⟨v, n, hf, hlt⟩ := fwr_ok net CID s.calls 0
  rw [fcc_miss net s CID v n hne (Or.inr hc) hf, hf]
  exact ⟨rfl, hlt⟩

/-- Witness for C10 at a concrete state caching `null` under "h": the
collaborator is invoked again even though the key is present. -/
theorem claim_C10_witness :
    ("h" : String) ≠ ""
      ∧ nullCachedState.cacheMap "h" = some none
      ∧ ((fetchCIDContent netOk nullCachedState "h").1
          = (fetchWithRetry netOk "h" nullCachedState.calls 0).1
        ∧ nullCachedState.calls < ((fetchCIDContent netOk nullCachedState "h").2).calls) :=
  ⟨by decide, rfl,
    claim_C10_null_cache_refetch netOk nullCachedState "h" (by decide) rfl⟩

end UseFetchCID
